import Mathlib

/-!
Shallow embedding of `apps/chatbot/services/chat_service.py` (class `ChatService`)
from the FitAi-TCC repository, together with proofs about the behaviour its
specification claims.

The Django model layer (`Conversation`, `Message`, `ChatContext`), the Django
cache, and the AI completion backend are external collaborators of this file:
the parts of their behaviour the service relies on are modelled explicitly
(persistence as in-memory lists with the query semantics the spec describes,
the cache as a TTL-keyed association list, the backend as oracle functions in
an environment record).  Time is modelled in seconds as a natural number.
-/

namespace FitAi

/-- Python truthiness of an optional string (`None` and `""` are falsy). -/
def pyStrTruthy : Option String → Bool
  | none => false
  | some s => s ≠ ""

/-- Python truthiness of an optional number (`None` and `0.0` are falsy). -/
def pyRatTruthy : Option Rat → Bool
  | none => false
  | some q => q ≠ 0

/-- Lower-case table for the accented characters appearing in Portuguese text;
`str.lower()` in Python lowers these as well as ASCII. -/
def accentLower : List (Char × Char) :=
  [('Á', 'á'), ('À', 'à'), ('Â', 'â'), ('Ã', 'ã'), ('É', 'é'), ('Ê', 'ê'),
   ('Í', 'í'), ('Ó', 'ó'), ('Ô', 'ô'), ('Õ', 'õ'), ('Ú', 'ú'), ('Ü', 'ü'),
   ('Ç', 'ç')]

/-- Model of Python `str.lower()` for the character set used by this service:
ASCII letters plus the accented Portuguese letters. -/
def pyLowerChar (c : Char) : Char :=
  match accentLower.lookup c with
  | some l => l
  | none => c.toLower

/-- Model of Python `str.lower()`. -/
def pyLower (s : String) : String :=
  String.mk (s.toList.map pyLowerChar)

/-- Model of Python `str.split()` with no argument: split on whitespace and
drop empty pieces. -/
def pySplit (s : String) : List String :=
  (s.split Char.isWhitespace).filter (fun t => t ≠ "")

/-- Character-list substring test: does `needle` occur contiguously in `hay`? -/
def listInfixOf (needle : List Char) : List Char → Bool
  | [] => needle.isEmpty
  | c :: rest => needle.isPrefixOf (c :: rest) || listInfixOf needle rest

/-- Model of the Python substring test `needle in hay` on strings. -/
def containsSubstr (hay needle : String) : Bool :=
  listInfixOf needle.toList hay.toList

/-- Result of intent analysis: the JSON-like payload produced by
`_rule_based_intent_analysis` / `_ai_intent_analysis`. -/
structure IntentAnalysis where
  intent : String
  confidence : Rat
  secondaryIntents : List String
  keywords : List String
  urgencyLevel : String
  requiresPersonalization : Bool
deriving DecidableEq, Repr

/-- The fixed keyword table of `_rule_based_intent_analysis`
(`chat_service.py` lines 321-330), in source order. -/
def intent_keywords : List (String × List String) :=
  [("workout_request", ["treino", "exercício", "workout", "série", "repetição", "treinar"]),
   ("technique_question", ["como", "técnica", "forma", "postura", "execução", "executar"]),
   ("nutrition_advice", ["alimentação", "dieta", "nutrição", "proteína", "comer", "comida"]),
   ("progress_inquiry", ["progresso", "resultado", "evolução", "melhora", "crescimento"]),
   ("motivation_need", ["motivação", "desânimo", "preguiça", "força", "conseguir"]),
   ("equipment_question", ["equipamento", "aparelho", "peso", "halteres", "academia"]),
   ("injury_concern", ["dor", "lesão", "machuca", "problema", "desconforto"]),
   ("schedule_planning", ["rotina", "horário", "frequência", "quando", "quantas vezes"])]

/-- Number of keywords of one intent that occur as substrings of the
lower-cased message (`sum([1 for keyword in keywords if keyword in message_lower])`). -/
def intentScore (message_lower : String) (kws : List String) : Nat :=
  (kws.filter (fun kw => containsSubstr message_lower kw)).length

/-- The `intent_scores` dictionary of `_rule_based_intent_analysis`: intents
with a positive match count, in table order, each mapped to
`score / len(keywords)`. -/
def intentScoresList (message_lower : String) : List (String × Rat) :=
  intent_keywords.filterMap (fun p =>
    let score := intentScore message_lower p.2
    if score > 0 then some (p.1, (score : Rat) / (p.2.length : Rat)) else none)

/-- Python `max(iterable, key=...)` over an association list by value: keeps
the current maximum and replaces it only on a strictly greater value, so the
first of several equal maxima wins. -/
def pyMaxPair : (String × Rat) → List (String × Rat) → (String × Rat)
  | cur, [] => cur
  | cur, p :: rest => pyMaxPair (if p.2 > cur.2 then p else cur) rest

/-- Embedding of `_rule_based_intent_analysis` (lines 314-356). -/
def rule_based_intent_analysis (message : String) : IntentAnalysis :=
  let message_lower := pyLower message
  let intent_scores := intentScoresList message_lower
  let main : String × Rat :=
    match intent_scores with
    | [] => ("general_question", (1 : Rat) / 2)
    | q :: rest => pyMaxPair q rest
  { intent := main.1
    confidence := main.2
    secondaryIntents :=
      (intent_scores.filter (fun q => q.1 ≠ main.1 && q.2 > (1 : Rat) / 5)).map (·.1)
    keywords :=
      (pySplit message_lower).filter
        (fun w => intent_keywords.any (fun p => p.2.contains w))
    urgencyLevel :=
      if ["dor", "lesão", "urgente"].any (fun w => containsSubstr message_lower w)
      then "high" else "medium"
    requiresPersonalization := true }

/-- A user row (only the fields the service reads: Django always resolves the
`conversation.user` foreign key, and the service reads `first_name` and `id`). -/
structure UserRec where
  id : Nat
  firstName : String
deriving DecidableEq, Repr

/-- A `Conversation` row, with the fields the service reads or writes.
`createdAt` is in seconds. -/
structure Conversation where
  id : Nat
  userId : Nat
  conversationType : String
  status : String
  createdAt : Nat
  aiModelUsed : String
  userSatisfactionRating : Option Rat
deriving DecidableEq, Repr

/-- A `Message` row, with the fields the service writes.  Fields the service
leaves untouched on user messages keep their store defaults (zero / empty). -/
structure Message where
  id : Nat
  conversationId : Nat
  messageType : String
  content : String
  status : String
  confidenceScore : Rat
  aiModelVersion : String
  responseTimeMs : Rat
  tokensUsed : Rat
  intentDetected : Option String
deriving DecidableEq, Repr

/-- Summary of one workout session as stored in the initial conversation
context (`_initialize_conversation_context`). -/
structure WorkoutSummary where
  workoutName : String
  completedAt : String
  rating : Option Rat
  duration : Option Nat
deriving DecidableEq, Repr

/-- The structured values this service stores in `ChatContext.context_value`
(the store holds arbitrary JSON; only these shapes are ever written here). -/
inductive CtxValue where
  | basicInfo (profileComplete : Bool) (goal activityLevel : Option String)
  | recentWorkouts (sessions : List WorkoutSummary)
  | conversationStyle (preferredResponseLength technicalLevel : String)
  | messageStyle (prefersDetailed : Bool) (lastMessageLength : Nat)
  | topicsVal (topics : List String)
deriving DecidableEq, Repr

/-- A `ChatContext` row. -/
structure ChatContext where
  conversationId : Nat
  contextType : String
  contextKey : String
  contextValue : CtxValue
  relevance : Rat
deriving DecidableEq, Repr

/-- One entry of the intent-analysis cache.  The key stands for
`"intent_analysis_" + hash(message.lower())`; the hash is modelled injectively
by the lower-cased text itself (the spec flags hash collisions as an accepted
approximation).  `expiresAt` is absolute: the entry is live while
`now < expiresAt`, matching a TTL cache. -/
structure CacheEntry where
  key : String
  value : IntentAnalysis
  expiresAt : Nat
deriving DecidableEq, Repr

/-- The whole external store plus the process-wide cache. -/
structure St where
  users : List UserRec
  conversations : List Conversation
  messages : List Message
  contexts : List ChatContext
  cache : List CacheEntry
  nextConvId : Nat
  nextMsgId : Nat
deriving DecidableEq, Repr

/-- A user profile as read by `_initialize_conversation_context`; only the
fields the prompt builder later inspects are kept structured (the others are
opaque to every claim). -/
structure ProfileRec where
  goal : Option String
  activityLevel : Option String
deriving DecidableEq, Repr

/-- A `WorkoutSession` row as read by `_initialize_conversation_context`. -/
structure WorkoutSessionRec where
  completed : Bool
  completedAt : Nat
  workoutName : Option String
  userRating : Option Rat
  actualDuration : Option Nat
deriving DecidableEq, Repr

/-- The collaborators of the service: the clock, the completion backend
(availability flag, chat-completion oracle, intent-classification oracle which
stands for `_ai_intent_analysis`'s request plus JSON parse, returning `none` on
any failure), the measured latency, and the user/workout subsystems. -/
structure Env where
  now : Nat
  aiAvailable : Bool
  complete : List (String × String) → Option String
  aiIntent : String → Option IntentAnalysis
  elapsedMs : Rat
  profile : Nat → Option ProfileRec
  sessions : Nat → List WorkoutSessionRec
  openaiModel : String

/-- Values of the JSON-like dictionaries the public operations return. -/
inductive DVal where
  | str (s : String)
  | num (q : Rat)
  | nat (n : Nat)
  | bool (b : Bool)
  | strList (l : List String)
deriving DecidableEq, Repr

/-- A returned dictionary: keys in insertion order. -/
abbrev Dict := List (String × DVal)

/-- Modelled from the spec: `Conversation.is_expired` lives in the Django
model file, which is not part of the sources here.  The spec states the
operation fails with an expired result "if the conversation's age exceeds the
fixed timeout (24 hours) regardless of status". -/
def is_expired (now : Nat) (c : Conversation) : Bool :=
  decide (c.createdAt + 86400 < now)

/-- Modelled from the spec: `conversation.message_count` (Django model field),
"returns message count" — the number of messages of the conversation. -/
def message_count (st : St) (cid : Nat) : Nat :=
  (st.messages.filter (fun m => m.conversationId == cid)).length

/-- Does a context record belong to the given (conversation, type, key)? -/
def ctxMatches (cid : Nat) (ctype ckey : String) (c : ChatContext) : Bool :=
  c.conversationId == cid && c.contextType == ctype && c.contextKey == ckey

/-- Modelled from the spec: `ChatContext.set_context` (Django model helper).
The spec gives it upsert semantics: "latest write for a given (conversation,
type, key) wins — no history retained". -/
def setContext (contexts : List ChatContext) (cid : Nat) (ctype ckey : String)
    (v : CtxValue) (rel : Rat) : List ChatContext :=
  (contexts.filter (fun c => !ctxMatches cid ctype ckey c))
    ++ [⟨cid, ctype, ckey, v, rel⟩]

/-- Modelled from the spec: `ChatContext.get_context(conversation, type, key)`
followed by `.first()` — lookup of the record for one key. -/
def getContextFirst (contexts : List ChatContext) (cid : Nat)
    (ctype ckey : String) : Option ChatContext :=
  contexts.find? (ctxMatches cid ctype ckey)

/-- Modelled from the spec: `ChatContext.get_context(conversation)` with no
key — all context records of the conversation. -/
def contextsFor (contexts : List ChatContext) (cid : Nat) : List ChatContext :=
  contexts.filter (fun c => c.conversationId == cid)

/-- Django cache `get`: the stored entry for the key, if still live. -/
def cacheGet (cache : List CacheEntry) (now : Nat) (key : String) :
    Option IntentAnalysis :=
  (cache.find? (fun e => e.key == key && decide (now < e.expiresAt))).map (·.value)

/-- Django cache `set` with a TTL: overwrite any entry for the key. -/
def cacheSet (cache : List CacheEntry) (key : String) (v : IntentAnalysis)
    (expiresAt : Nat) : List CacheEntry :=
  ⟨key, v, expiresAt⟩ :: cache.filter (fun e => e.key != key)

/-- The cache key of `_analyze_message_intent`
(`f"intent_analysis_{hash(message.lower())}"`, hash modelled injectively). -/
def cacheKey (message : String) : String :=
  "intent_analysis_" ++ pyLower message

/-- Embedding of `_analyze_message_intent` (lines 239-264): cached result if
live, else AI classification (cached 3600 s) when the backend is available and
answers, else the rule-based analysis (cached 1800 s). -/
def analyze_message_intent (env : Env) (cache : List CacheEntry)
    (message : String) : IntentAnalysis × List CacheEntry :=
  match cacheGet cache env.now (cacheKey message) with
  | some cached => (cached, cache)
  | none =>
    if env.aiAvailable then
      match env.aiIntent message with
      | some ai => (ai, cacheSet cache (cacheKey message) ai (env.now + 3600))
      | none =>
        let rule := rule_based_intent_analysis message
        (rule, cacheSet cache (cacheKey message) rule (env.now + 1800))
    else
      let rule := rule_based_intent_analysis message
      (rule, cacheSet cache (cacheKey message) rule (env.now + 1800))

/-- Python `topics[-5:]`. -/
def pyTakeLast (n : Nat) (l : List String) : List String :=
  l.drop (l.length - n)

/-- The `topics` list stored under `preferences/topics_of_interest`, or `[]`
(`current_topics.context_value.get('topics', [])`). -/
def topicsOfRecord : Option ChatContext → List String
  | some c =>
    match c.contextValue with
    | .topicsVal t => t
    | _ => []
  | none => []

/-- Embedding of `_update_conversation_context` (lines 651-689). -/
def update_conversation_context (cid : Nat) (contexts : List ChatContext)
    (message : String) (intent_analysis : IntentAnalysis) : List ChatContext :=
  let message_length := (pySplit message).length
  let contexts :=
    if message_length > 20 then
      setContext contexts cid "preferences" "message_style"
        (.messageStyle true message_length) ((7 : Rat) / 10)
    else contexts
  let intent := intent_analysis.intent
  match getContextFirst contexts cid "preferences" "topics_of_interest" with
  | some current_topics =>
    let topics := topicsOfRecord (some current_topics)
    let topics :=
      if intent ∈ topics then topics else pyTakeLast 5 (topics ++ [intent])
    setContext contexts cid "preferences" "topics_of_interest"
      (.topicsVal topics) ((3 : Rat) / 5)
  | none =>
    setContext contexts cid "preferences" "topics_of_interest"
      (.topicsVal [intent]) ((3 : Rat) / 5)

/-- The `fallback_responses` dictionary of `_generate_fallback_response`
(lines 504-518), keys in source order, with the possessive interpolation of
`user_name` made explicit. -/
def fallback_responses (user_name : String) : List (String × String) :=
  [("workout_request",
    "Olá, " ++ user_name ++ "! Para recomendações de treino personalizadas, que tal começarmos com alguns exercícios básicos? Posso sugerir um treino de corpo inteiro com agachamentos, flexões e prancha. Você tem alguma preferência específica ou restrição?"),
   ("technique_question",
    "Ótima pergunta sobre técnica, " ++ user_name ++ "! A execução correta é fundamental para evitar lesões e maximizar resultados. Para exercícios específicos, sempre foque em: postura correta, movimento controlado, respiração adequada e progressão gradual. Sobre qual exercício você gostaria de saber mais?"),
   ("nutrition_advice",
    "Nutrição é super importante, " ++ user_name ++ "! Algumas dicas básicas: mantenha-se hidratado, inclua proteínas em cada refeição, e consuma vegetais variados. Para um plano nutricional específico, recomendo consultar um nutricionista qualificado. Posso ajudar com mais alguma coisa sobre fitness?"),
   ("progress_inquiry",
    "Que bom que você está acompanhando seu progresso, " ++ user_name ++ "! O importante é a consistência. Celebre cada pequena vitória e lembre-se que resultados levam tempo. Continue firme na sua rotina! Como você tem se sentido nos treinos recentes?"),
   ("motivation_need",
    "Entendo, " ++ user_name ++ ". Todos passamos por momentos assim! Lembre-se: cada treino é um investimento na sua saúde e bem-estar. Comece pequeno se necessário - até 10 minutos já fazem diferença. Você é mais forte do que imagina! O que te motivou a começar essa jornada?"),
   ("injury_concern",
    "Sua segurança é prioridade, " ++ user_name ++ ". Se você está sentindo dor, é importante parar e avaliar. Para dores persistentes, sempre consulte um profissional de saúde. No treino, escute sempre seu corpo. Posso ajudar com exercícios de baixo impacto enquanto se recupera?"),
   ("general_question",
    "Oi, " ++ user_name ++ "! Estou aqui para ajudar com suas dúvidas sobre fitness. Posso orientar sobre exercícios, técnicas, motivação e planejamento de treinos. No que posso te auxiliar hoje?")]

/-- Lookup into `fallback_responses` with the `general_question` default
(`fallback_responses.get(intent, fallback_responses['general_question'])`). -/
def fallback_text (user_name intent : String) : String :=
  match (fallback_responses user_name).lookup intent with
  | some t => t
  | none =>
    match (fallback_responses user_name).lookup "general_question" with
    | some t => t
    | none => ""

/-- First name of a user row, defaulting to the empty string (Django
`first_name` is an empty string when unset, never `None`). -/
def firstNameOf (users : List UserRec) (uid : Nat) : String :=
  match users.find? (fun u => u.id == uid) with
  | some u => u.firstName
  | none => ""

/-- Python `first_name or fallback`. -/
def pyOrStr (s fallback : String) : String :=
  if s = "" then fallback else s

/-- Embedding of `_generate_fallback_response` (lines 497-520). -/
def generate_fallback_response (st : St) (conversation : Conversation)
    (intent_analysis : IntentAnalysis) : String :=
  let user_name := pyOrStr (firstNameOf st.users conversation.userId) "amigo(a)"
  fallback_text user_name intent_analysis.intent

/-- The `action_patterns` table of `_process_ai_response` (lines 472-478). -/
def action_patterns : List (String × List String) :=
  [("try_exercise", ["experimente", "tente fazer", "faça"]),
   ("rest_recovery", ["descanse", "pause", "recuperação"]),
   ("seek_professional", ["consulte", "procure um", "médico", "fisioterapeuta"]),
   ("schedule_workout", ["agende", "planeje", "organize"]),
   ("track_progress", ["anote", "registre", "acompanhe"])]

/-- The `common_exercises` list of `_process_ai_response` (line 487). -/
def common_exercises : List String :=
  ["agachamento", "flexão", "corrida", "caminhada", "prancha", "abdominais"]

/-- The processed AI response produced by `_process_ai_response`. -/
structure ProcessedResponse where
  success : Bool
  content : String
  confidenceScore : Rat
  suggestedActions : List String
  workoutReferences : List String
deriving DecidableEq, Repr

/-- Embedding of `_process_ai_response` (lines 457-495). -/
def process_ai_response (response : String) : ProcessedResponse :=
  let response_lower := pyLower response
  { success := true
    content := response
    confidenceScore := (4 : Rat) / 5
    suggestedActions :=
      (action_patterns.filter (fun p =>
        p.2.any (fun pat => containsSubstr response_lower pat))).map (·.1)
    workoutReferences :=
      common_exercises.filter (fun ex => containsSubstr response_lower ex) }

/-- The `intent_contexts` table of `_build_fitness_chat_system_prompt`
(lines 437-444). -/
def intent_contexts : List (String × String) :=
  [("workout_request", "\nFOCO: Recomende exercícios seguros e progressivos. Sempre inclua aquecimento e alongamento."),
   ("technique_question", "\nFOCO: Explique técnica com clareza, enfatize segurança e sugira progressões."),
   ("nutrition_advice", "\nFOCO: Dê orientações gerais, sempre recomende consulta com nutricionista para planos específicos."),
   ("progress_inquiry", "\nFOCO: Analise dados disponíveis, celebre conquistas e sugira próximos passos."),
   ("motivation_need", "\nFOCO: Seja encorajador, lembre dos benefícios e sugira estratégias práticas."),
   ("injury_concern", "\nFOCO: Priorize segurança, recomende descanso se necessário e consulta profissional.")]

/-- The goal stored for the conversation, read back from the
`user_profile/basic_info` context record, as the prompt builder sees it
(`user_profile.get('goal')`, where a missing or empty goal is falsy). -/
def contextGoal (contexts : List ChatContext) (cid : Nat) : Option String :=
  match getContextFirst contexts cid "user_profile" "basic_info" with
  | some c =>
    match c.contextValue with
    | .basicInfo _ (some g) _ => if g = "" then none else some g
    | _ => none
  | none => none

/-- The activity level stored for the conversation, read back like
`contextGoal` (`user_profile.get('activity_level')`). -/
def contextActivityLevel (contexts : List ChatContext) (cid : Nat) : Option String :=
  match getContextFirst contexts cid "user_profile" "basic_info" with
  | some c =>
    match c.contextValue with
    | .basicInfo _ _ (some a) => if a = "" then none else some a
    | _ => none
  | none => none

/-- The recent-workout summaries stored for the conversation, read back from
the `workout_history/recent_workouts` record. -/
def contextRecentSessions (contexts : List ChatContext) (cid : Nat) :
    List WorkoutSummary :=
  match getContextFirst contexts cid "workout_history" "recent_workouts" with
  | some c =>
    match c.contextValue with
    | .recentWorkouts l => l
    | _ => []
  | none => []

/-- The fixed persona block of `_build_fitness_chat_system_prompt`
(lines 413-427). -/
def base_persona : String :=
  "Você é Alex, um personal trainer virtual especialista em fitness com 10 anos de experiência.\n\nPERSONALIDADE:\n- Amigável, motivador e profissional\n- Usa linguagem clara e acessível\n- Encoraja sem ser excessivo\n- Foca na segurança e na progressão gradual\n- Baseado em evidência científica\n\nDIRETRIZES DE RESPOSTA:\n- Máximo 200 palavras por resposta\n- Use emojis ocasionalmente para engajamento\n- Seja específico e prático\n- Sempre priorize a segurança\n- Adapte ao nível do usuário"

/-- Embedding of `_build_fitness_chat_system_prompt` (lines 406-455).  The
`context_data` argument of the source is the conversation's context records. -/
def build_fitness_chat_system_prompt (intent_analysis : IntentAnalysis)
    (contexts : List ChatContext) (cid : Nat) : String :=
  let base := base_persona
  let base :=
    match contextGoal contexts cid with
    | some g => base ++ "\n\nOBJETIVO DO USUÁRIO: " ++ g
    | none => base
  let base :=
    match contextActivityLevel contexts cid with
    | some a => base ++ "\nNÍVEL ATUAL: " ++ a
    | none => base
  let base :=
    match intent_contexts.lookup intent_analysis.intent with
    | some extra => base ++ extra
    | none => base
  let recent := contextRecentSessions contexts cid
  let base :=
    if recent.length > 0 then
      base ++ "\n\nHISTÓRICO RECENTE: " ++ toString recent.length
        ++ " treinos realizados recentemente."
    else base
  base ++ "\n\nSempre termine perguntando se precisa de mais alguma coisa ou esclarecimento adicional."

/-- Modelled from the spec: `conversation.get_last_messages(n)` (Django model
helper) — the `n` most recent messages of the conversation, most recent
first (the caller re-reverses them into chronological order). -/
def get_last_messages (st : St) (cid : Nat) (n : Nat) : List Message :=
  ((st.messages.filter (fun m => m.conversationId == cid)).reverse).take n

/-- Embedding of `_save_user_message` (lines 611-618): fields not set there
keep their store defaults. -/
def save_user_message (st : St) (cid : Nat) (content : String) : St × Message :=
  let m : Message :=
    { id := st.nextMsgId, conversationId := cid, messageType := "user"
      content := content, status := "delivered", confidenceScore := 0
      aiModelVersion := "", responseTimeMs := 0, tokensUsed := 0
      intentDetected := none }
  ({ st with messages := st.messages ++ [m], nextMsgId := st.nextMsgId + 1 }, m)

/-- Embedding of `_save_ai_message` (lines 620-634); `tokens_used` is the
source's `len(content.split()) * 1.3` estimate. -/
def save_ai_message (env : Env) (st : St) (cid : Nat) (content : String)
    (response_time_ms : Rat) (confidence_score : Rat) (intent : Option String) :
    St × Message :=
  let m : Message :=
    { id := st.nextMsgId, conversationId := cid, messageType := "ai"
      content := content, status := "delivered"
      confidenceScore := confidence_score, aiModelVersion := env.openaiModel
      responseTimeMs := response_time_ms
      tokensUsed := ((pySplit content).length : Rat) * ((13 : Rat) / 10)
      intentDetected := intent }
  ({ st with messages := st.messages ++ [m], nextMsgId := st.nextMsgId + 1 }, m)

/-- Embedding of `_generate_ai_response` (lines 358-404): `none` when the
backend is unavailable or returns nothing, otherwise the post-processed reply. -/
def generate_ai_response (env : Env) (st : St) (conversation : Conversation)
    (message : String) (intent_analysis : IntentAnalysis) :
    Option ProcessedResponse :=
  if !env.aiAvailable then none
  else
    let recent_messages := get_last_messages st conversation.id 8
    let conversation_history :=
      recent_messages.reverse.map (fun m =>
        (if m.messageType == "user" then "user" else "assistant", m.content))
    let system_prompt :=
      build_fitness_chat_system_prompt intent_analysis st.contexts conversation.id
    let messages :=
      [("system", system_prompt)]
        ++ (conversation_history.reverse.take 6).reverse
        ++ [("user", message)]
    match env.complete messages with
    | some response => some (process_ai_response response)
    | none => none

/-- The welcome payload produced by `_generate_welcome_message` /
`_ai_welcome_message` (content, confidence, response time). -/
structure WelcomeMsg where
  content : String
  confidence : Rat
  responseTime : Rat
deriving DecidableEq, Repr

/-- The `type_messages` table of `_generate_welcome_message` (lines 538-548). -/
def welcome_type_messages (user_name : String) : List (String × String) :=
  [("workout_consultation",
    "Olá, " ++ user_name ++ "! 💪 Sou Alex, seu personal trainer virtual. Estou aqui para ajudar você a criar treinos personalizados e alcançar seus objetivos. Como posso te ajudar hoje?"),
   ("progress_analysis",
    "Oi, " ++ user_name ++ "! 📈 Que bom te ver aqui! Vamos analisar seu progresso e ver como você está evoluindo. Tenho algumas perguntas para entender melhor sua jornada. Pronto para começar?"),
   ("motivation_chat",
    "Hey, " ++ user_name ++ "! 🌟 Às vezes todos precisamos de um empurrãozinho, né? Estou aqui para te motivar e lembrar do incrível que você é. Vamos conversar sobre o que está te preocupando?"),
   ("technique_guidance",
    "Salve, " ++ user_name ++ "! 🎯 Técnica correta é tudo no fitness! Estou aqui para te ajudar com dúvidas sobre execução de exercícios e boa forma. Qual movimento você gostaria de aperfeiçoar?"),
   ("general_fitness",
    "Olá, " ++ user_name ++ "! 🏃‍♂️ Bem-vindo(a) ao seu chat fitness personalizado! Sou Alex e estou aqui para tirar dúvidas, sugerir treinos e te apoiar nessa jornada. O que você gostaria de saber?")]

/-- Embedding of `_ai_welcome_message` (lines 566-609): build the welcome
prompts and ask the backend; `none` on request failure. -/
def ai_welcome_message (env : Env) (user_name conversation_type : String)
    (contexts : List ChatContext) (cid : Nat) : Option WelcomeMsg :=
  let system_prompt :=
    "Você é Alex, um personal trainer virtual amigável. Crie uma mensagem de boas-vindas personalizada e motivadora para iniciar uma conversa sobre fitness."
  let user_prompt :=
    "\nCrie mensagem de boas-vindas para " ++ user_name
      ++ ".\n\nTIPO DE CONVERSA: " ++ conversation_type
      ++ "\nPERFIL: " ++ ((contextGoal contexts cid).getD "não informado")
      ++ "\nNÍVEL: " ++ ((contextActivityLevel contexts cid).getD "não informado")
      ++ "\n\nREQUISITOS:\n- Máximo 100 palavras\n- Tom amigável e profissional\n- Mencione o nome da pessoa\n- Relacione com o tipo de conversa\n- Termine com pergunta envolvente\n- Use 1-2 emojis apropriados\n"
  match env.complete [("system", system_prompt), ("user", user_prompt)] with
  | some response =>
    some { content := response.trim, confidence := (9 : Rat) / 10
           responseTime := env.elapsedMs }
  | none => none

/-- Embedding of `_generate_welcome_message` (lines 522-564): AI-generated
welcome when available, else the canned per-type message. -/
def generate_welcome_message (env : Env) (st : St)
    (conversation : Conversation) : Option WelcomeMsg :=
  let user_name := pyOrStr (firstNameOf st.users conversation.userId) "atleta"
  let aiTry :=
    if env.aiAvailable then
      ai_welcome_message env user_name conversation.conversationType
        st.contexts conversation.id
    else none
  match aiTry with
  | some w => some w
  | none =>
    let content :=
      match (welcome_type_messages user_name).lookup conversation.conversationType with
      | some t => t
      | none =>
        match (welcome_type_messages user_name).lookup "general_fitness" with
        | some t => t
        | none => ""
    some { content := content, confidence := (4 : Rat) / 5, responseTime := 100 }

/-- Descending insertion by `completedAt` (most recent first), modelling the
`order_by('-completed_at')` of the workout-session query. -/
def insertDesc (s : WorkoutSessionRec) : List WorkoutSessionRec → List WorkoutSessionRec
  | [] => [s]
  | t :: r => if t.completedAt ≤ s.completedAt then s :: t :: r else t :: insertDesc s r

/-- Sort workout sessions most recent first. -/
def sortSessionsDesc : List WorkoutSessionRec → List WorkoutSessionRec
  | [] => []
  | s :: r => insertDesc s (sortSessionsDesc r)

/-- Stand-in for `strftime('%d/%m/%Y')`: an opaque rendering of the
timestamp (calendar formatting is outside the model). -/
def fmtDate (t : Nat) : String :=
  toString t

/-- Embedding of `_initialize_conversation_context` (lines 178-237): store the
profile facts, the completed workout sessions of the last 7 days (most recent
first, capped at 5), and the default conversation-style preferences. -/
def initialize_conversation_context (env : Env) (contexts : List ChatContext)
    (conversation : Conversation) : List ChatContext :=
  let contexts :=
    match env.profile conversation.userId with
    | some p =>
      setContext contexts conversation.id "user_profile" "basic_info"
        (.basicInfo true p.goal p.activityLevel) 1
    | none =>
      setContext contexts conversation.id "user_profile" "basic_info"
        (.basicInfo false none none) ((1 : Rat) / 2)
  let recent_sessions :=
    (sortSessionsDesc ((env.sessions conversation.userId).filter
      (fun s => s.completed && decide (env.now ≤ s.completedAt + 604800)))).take 5
  let workout_history := recent_sessions.map (fun s =>
    { workoutName := s.workoutName.getD "Treino Personalizado"
      completedAt := fmtDate s.completedAt
      rating := s.userRating
      duration := s.actualDuration : WorkoutSummary })
  let contexts :=
    setContext contexts conversation.id "workout_history" "recent_workouts"
      (.recentWorkouts workout_history) ((4 : Rat) / 5)
  setContext contexts conversation.id "preferences" "conversation_style"
    (.conversationStyle "medium" "intermediate") ((3 : Rat) / 5)

/-- The not-found result of `process_user_message` (lines 166-170). -/
def processNotFoundDict : Dict :=
  [("error", .str "Conversa não encontrada"),
   ("suggestion", .str "Verifique o ID da conversa ou inicie uma nova")]

/-- The expired result of `process_user_message` (lines 104-108). -/
def processExpiredDict : Dict :=
  [("error", .str "Conversa expirada"),
   ("suggestion", .str "Inicie uma nova conversa para continuar")]

/-- The generic error result of `process_user_message` (lines 171-176). -/
def processErrorDict : Dict :=
  [("error", .str "Erro ao processar mensagem"),
   ("suggestion", .str "Tente novamente ou reformule sua pergunta")]

/-- Embedding of `process_user_message` (lines 94-164), the
exception-free flow: look up the conversation, reject expired conversations,
persist the user message, classify, back-fill the detected intent, update the
context, then answer with the AI reply or the rule-based fallback, persisting
one assistant message either way.  The two latency reads of the source are
modelled by the single measured `env.elapsedMs`. -/
def process_user_message (env : Env) (st : St) (conversation_id : Nat)
    (message : String) : St × Dict :=
  match st.conversations.find? (fun c => c.id == conversation_id) with
  | none => (st, processNotFoundDict)
  | some conversation =>
    if is_expired env.now conversation then (st, processExpiredDict)
    else
      let (st, user_message) := save_user_message st conversation.id message
      let (intent_analysis, cache2) := analyze_message_intent env st.cache message
      let st := { st with cache := cache2 }
      let st :=
        { st with messages := st.messages.map (fun (m : Message) =>
            if m.id == user_message.id then
              { m with intentDetected := some intent_analysis.intent }
            else m) }
      let st :=
        { st with contexts :=
            (update_conversation_context conversation.id st.contexts message
              intent_analysis) }
      match generate_ai_response env st conversation message intent_analysis with
      | some ai_response =>
        let (st, ai_message) :=
          save_ai_message env st conversation.id ai_response.content
            env.elapsedMs ai_response.confidenceScore (some intent_analysis.intent)
        (st, [("message_id", .nat ai_message.id),
              ("response", .str ai_response.content),
              ("conversation_updated", .bool true),
              ("intent_detected", .str intent_analysis.intent),
              ("confidence_score", .num ai_response.confidenceScore),
              ("response_time_ms", .num env.elapsedMs),
              ("suggested_actions", .strList ai_response.suggestedActions),
              ("workout_references", .strList ai_response.workoutReferences),
              ("method", .str "ai_powered")])
      | none =>
        let fallback_response := generate_fallback_response st conversation intent_analysis
        let (st, ai_message) :=
          save_ai_message env st conversation.id fallback_response
            env.elapsedMs ((3 : Rat) / 5) (some intent_analysis.intent)
        (st, [("message_id", .nat ai_message.id),
              ("response", .str fallback_response),
              ("conversation_updated", .bool true),
              ("intent_detected", .str intent_analysis.intent),
              ("method", .str "rule_based_fallback"),
              ("note", .str "IA temporariamente indisponível")])

/-- The filter of the resumable-conversation query in `start_conversation`
(lines 38-42): active conversation of the user created within the last two
hours. -/
def recentPred (now uid : Nat) (c : Conversation) : Bool :=
  c.userId == uid && c.status == "active" && decide (now ≤ c.createdAt + 7200)

/-- The resumed result of `start_conversation` (lines 44-51). -/
def resumedDict (rc : Conversation) : Dict :=
  [("conversation_id", .nat rc.id),
   ("status", .str "resumed"),
   ("message", .str "Continuando conversa anterior..."),
   ("conversation_type", .str rc.conversationType),
   ("context_loaded", .bool true)]

/-- The generic error result of `start_conversation` (lines 87-92). -/
def startErrorDict : Dict :=
  [("error", .str "Não foi possível iniciar conversa"),
   ("fallback", .str "Tente novamente em alguns instantes")]

/-- The creation path of `start_conversation` (lines 53-85): create the
conversation, seed its context, then either emit a welcome message or run the
message-processing path on the supplied initial message (whose per-message
result is discarded). -/
def start_new_conversation (env : Env) (st : St) (userId : Nat)
    (conversation_type : String) (initial_message : Option String) : St × Dict :=
  let conversation : Conversation :=
    { id := st.nextConvId, userId := userId
      conversationType := conversation_type, status := "active"
      createdAt := env.now, aiModelUsed := env.openaiModel
      userSatisfactionRating := none }
  let st := { st with conversations := st.conversations ++ [conversation]
                      nextConvId := st.nextConvId + 1 }
  let st := { st with contexts := initialize_conversation_context env st.contexts conversation }
  let st :=
    if pyStrTruthy initial_message then
      let (st, _) := save_user_message st conversation.id (initial_message.getD "")
      (process_user_message env st conversation.id (initial_message.getD "")).1
    else
      match generate_welcome_message env st conversation with
      | some w =>
        (save_ai_message env st conversation.id w.content w.responseTime
          w.confidence none).1
      | none => st
  (st, [("conversation_id", .nat conversation.id),
        ("status", .str "created"),
        ("conversation_type", .str conversation_type),
        ("context_loaded", .bool true),
        ("welcome_message", .bool true),
        ("ai_available", .bool env.aiAvailable)])

/-- Embedding of `start_conversation` (lines 31-92), the exception-free flow:
resume a recent active conversation when no initial message was supplied,
otherwise create a new one. -/
def start_conversation (env : Env) (st : St) (userId : Nat)
    (conversation_type : String) (initial_message : Option String) : St × Dict :=
  match st.conversations.find? (recentPred env.now userId) with
  | some recent_conversation =>
    if !pyStrTruthy initial_message then (st, resumedDict recent_conversation)
    else start_new_conversation env st userId conversation_type initial_message
  | none => start_new_conversation env st userId conversation_type initial_message

/-- The not-found result of `end_conversation` (line 736). -/
def endNotFoundDict : Dict :=
  [("error", .str "Conversa não encontrada")]

/-- The generic error result of `end_conversation` (line 739); note it carries
no suggestion. -/
def endErrorDict : Dict :=
  [("error", .str "Erro ao finalizar conversa")]

/-- Embedding of `end_conversation` (lines 717-739), the exception-free flow.
The rating is stored only when truthy (`if user_rating:`), while
`rating_saved` reports `user_rating is not None`. -/
def end_conversation (env : Env) (st : St) (conversation_id : Nat)
    (user_rating : Option Rat) : St × Dict :=
  match st.conversations.find? (fun c => c.id == conversation_id) with
  | none => (st, endNotFoundDict)
  | some conversation =>
    let conversation := { conversation with status := "completed" }
    let conversation :=
      if pyRatTruthy user_rating then
        { conversation with userSatisfactionRating := user_rating }
      else conversation
    let st :=
      { st with conversations := st.conversations.map (fun c =>
          if c.id == conversation_id then conversation else c) }
    (st, [("conversation_ended", .bool true),
          ("total_messages", .nat (message_count st conversation_id)),
          ("duration_minutes",
            .num (((env.now : Rat) - (conversation.createdAt : Rat)) / 60)),
          ("rating_saved", .bool user_rating.isSome)])

/-- An exception escaping the body of one of the orchestrator operations:
either the conversation lookup's `DoesNotExist` or any other internal failure,
carrying its message. -/
inductive PyExc where
  | doesNotExist
  | other (msg : String)
deriving DecidableEq, Repr

/-- The `try/except` shell of `start_conversation` (lines 36-92): its single
generic handler turns every exception into the fixed error result.  The
`internal` oracle injects an exception escaping the body, `none` meaning the
body ran to completion. -/
def start_conversation_caught (env : Env) (st : St) (userId : Nat)
    (conversation_type : String) (initial_message : Option String)
    (internal : Option PyExc) : Dict :=
  match internal with
  | none => (start_conversation env st userId conversation_type initial_message).2
  | some _ => startErrorDict

/-- The `try/except` shell of `process_user_message` (lines 100-176):
`Conversation.DoesNotExist` maps to the not-found result, everything else to
the generic processing-error result. -/
def process_user_message_caught (env : Env) (st : St) (conversation_id : Nat)
    (message : String) (internal : Option PyExc) : Dict :=
  match internal with
  | none => (process_user_message env st conversation_id message).2
  | some .doesNotExist => processNotFoundDict
  | some (.other _) => processErrorDict

/-- The `try/except` shell of `end_conversation` (lines 719-739):
`Conversation.DoesNotExist` maps to the not-found result, everything else to
the bare error result. -/
def end_conversation_caught (env : Env) (st : St) (conversation_id : Nat)
    (user_rating : Option Rat) (internal : Option PyExc) : Dict :=
  match internal with
  | none => (end_conversation env st conversation_id user_rating).2
  | some .doesNotExist => endNotFoundDict
  | some (.other _) => endErrorDict

/-- The nine intents of the classification contract (spec section 4.2). -/
def nine_intents : List String :=
  ["workout_request", "technique_question", "nutrition_advice",
   "progress_inquiry", "motivation_need", "equipment_question",
   "injury_concern", "schedule_planning", "general_question"]

/-- Claim-side measure: the maximum of the scores in an `intent_scores` list
(zero for an empty list; all real scores are positive). -/
def maxScore (l : List (String × Rat)) : Rat :=
  (l.map Prod.snd).foldl max 0

/-- Claim-side measure: number of assistant messages stored for a
conversation. -/
def countAi (st : St) (cid : Nat) : Nat :=
  st.messages.countP (fun m => m.conversationId == cid && m.messageType == "ai")

/-- Claim-side measure: number of stored user messages of a conversation with
a given content. -/
def countUser (st : St) (cid : Nat) (content : String) : Nat :=
  st.messages.countP (fun m =>
    m.conversationId == cid && m.messageType == "user" && m.content == content)

/-- The stored `preferences/topics_of_interest` record of a conversation. -/
def topicsRecord (contexts : List ChatContext) (cid : Nat) : Option ChatContext :=
  getContextFirst contexts cid "preferences" "topics_of_interest"

/-- The stored topics list of a conversation (empty when absent). -/
def topicsList (contexts : List ChatContext) (cid : Nat) : List String :=
  topicsOfRecord (topicsRecord contexts cid)

/-- Number of stored `topics_of_interest` records of a conversation. -/
def topicsCount (contexts : List ChatContext) (cid : Nat) : Nat :=
  contexts.countP (ctxMatches cid "preferences" "topics_of_interest")

/-- Relevance of the stored topics record of a conversation. -/
def topicsRelevance (contexts : List ChatContext) (cid : Nat) : Option Rat :=
  (topicsRecord contexts cid).map (·.relevance)

/-- Fixture: collaborators with the completion backend unavailable, at time
zero. -/
def env0 : Env :=
  { now := 0, aiAvailable := false, complete := fun _ => none
    aiIntent := fun _ => none, elapsedMs := 0, profile := fun _ => none
    sessions := fun _ => [], openaiModel := "gpt-3.5-turbo" }

/-- Fixture: the same collaborators 100000 seconds (about 28 hours) later. -/
def envLate : Env :=
  { env0 with now := 100000 }

/-- Fixture: one user with an active conversation created at time zero. -/
def stA : St :=
  { users := [⟨1, "Ana"⟩]
    conversations := [⟨1, 1, "general_fitness", "active", 0, "gpt-3.5-turbo", none⟩]
    messages := [], contexts := [], cache := []
    nextConvId := 2, nextMsgId := 1 }

/-- Fixture: one user with a completed conversation created at time zero. -/
def stCompleted : St :=
  { users := [⟨1, "Ana"⟩]
    conversations := [⟨1, 1, "general_fitness", "completed", 0, "gpt-3.5-turbo", none⟩]
    messages := [], contexts := [], cache := []
    nextConvId := 2, nextMsgId := 1 }

/-- Fixture: the collaborators of `env0` seen 10 seconds later. -/
def envSoon : Env :=
  { env0 with now := 10 }

/-- Fixture: a context store already holding five topics of interest for
conversation 1. -/
def ctxFive : List ChatContext :=
  [⟨1, "preferences", "topics_of_interest",
    .topicsVal ["workout_request", "technique_question", "nutrition_advice",
      "progress_inquiry", "motivation_need"], (3 : Rat) / 5⟩]

/-- Fixture: an intent-analysis payload detecting `injury_concern`. -/
def iaInjury : IntentAnalysis :=
  { intent := "injury_concern", confidence := (1 : Rat) / 5
    secondaryIntents := [], keywords := ["dor"], urgencyLevel := "high"
    requiresPersonalization := true }

/-- Fixture: an empty store. -/
def stEmpty : St :=
  { users := [], conversations := [], messages := [], contexts := [], cache := []
    nextConvId := 1, nextMsgId := 1 }

/-! Helper lemmas about list search and counting, shared by the claim
theorems below. -/

theorem find?_append_of_none {α : Type} (p : α → Bool) (l₁ l₂ : List α)
    (h : ∀ x ∈ l₁, p x = false) : (l₁ ++ l₂).find? p = l₂.find? p := by
  induction l₁ with
  | nil => rfl
  | cons a t ih =>
    have ha := h a (by simp)
    simp only [List.cons_append, List.find?_cons, ha]
    exact ih (fun x hx => h x (by simp [hx]))

theorem find?_append_some {α : Type} {p : α → Bool} {l₁ : List α} (l₂ : List α)
    {a : α} (h : l₁.find? p = some a) : (l₁ ++ l₂).find? p = some a := by
  induction l₁ with
  | nil => cases h
  | cons x t ih =>
    simp only [List.cons_append, List.find?_cons] at h ⊢
    cases hx : p x with
    | true => simp only [hx] at h ⊢; exact h
    | false => simp only [hx] at h ⊢; exact ih h

theorem find?_filter_of_imp {α : Type} (p keep : α → Bool) (l : List α)
    (h : ∀ x, p x = true → keep x = true) :
    (l.filter keep).find? p = l.find? p := by
  induction l with
  | nil => rfl
  | cons a t ih =>
    by_cases hk : keep a = true
    · simp only [List.filter_cons, hk, if_true, List.find?_cons]
      cases hp : p a <;> simp [ih]
    · have hp : p a = false := by
        cases hpa : p a
        · rfl
        · exact absurd (h a hpa) hk
      rw [List.filter_cons, if_neg hk, ih, List.find?_cons, hp]

theorem countP_filter_of_imp {α : Type} (p keep : α → Bool) (l : List α)
    (h : ∀ x, p x = true → keep x = true) :
    (l.filter keep).countP p = l.countP p := by
  induction l with
  | nil => rfl
  | cons a t ih =>
    by_cases hk : keep a = true
    · simp only [List.filter_cons, hk, if_true, List.countP_cons, ih]
    · have hp : p a = false := by
        cases hpa : p a
        · rfl
        · exact absurd (h a hpa) hk
      simp [List.filter_cons, hk, ih, List.countP_cons, hp]

theorem find?_map_of_pred {α : Type} (f : α → α) (p : α → Bool) (l : List α)
    (h : ∀ x, p (f x) = p x) : (l.map f).find? p = (l.find? p).map f := by
  induction l with
  | nil => rfl
  | cons a t ih =>
    simp only [List.map_cons, List.find?_cons, h a]
    cases hp : p a <;> simp [ih]

theorem find?_eq_some_of_unique {α : Type} (p : α → Bool) (l : List α) (a : α)
    (ha : a ∈ l) (hpa : p a = true) (huniq : ∀ b ∈ l, p b = true → b = a) :
    l.find? p = some a := by
  induction l with
  | nil => cases ha
  | cons x t ih =>
    cases hx : p x with
    | true =>
      simp only [List.find?_cons, hx]
      exact congrArg some (huniq x (by simp) hx)
    | false =>
      simp only [List.find?_cons, hx]
      apply ih
      · rcases List.mem_cons.mp ha with rfl | h
        · rw [hpa] at hx; cases hx
        · exact h
      · exact fun b hb hpb => huniq b (by simp [hb]) hpb

theorem pyMaxPair_mem (q : String × Rat) (l : List (String × Rat)) :
    pyMaxPair q l ∈ q :: l := by
  induction l generalizing q with
  | nil => simp [pyMaxPair]
  | cons r rest ih =>
    simp only [pyMaxPair]
    rcases List.mem_cons.mp (ih (if r.2 > q.2 then r else q)) with h | h
    · by_cases hr : r.2 > q.2
      · rw [h, if_pos hr]; simp
      · rw [h, if_neg hr]; simp
    · simp [List.mem_cons.mpr (Or.inr (List.mem_cons.mpr (Or.inr h)))]

theorem pyMaxPair_ge (q : String × Rat) (l : List (String × Rat)) :
    ∀ p ∈ q :: l, p.2 ≤ (pyMaxPair q l).2 := by
  induction l generalizing q with
  | nil =>
    intro p hp
    rcases List.mem_cons.mp hp with rfl | h
    · exact le_refl _
    · cases h
  | cons r rest ih =>
    intro p hp
    have hm : ∀ x ∈ (if r.2 > q.2 then r else q) :: rest,
        x.2 ≤ (pyMaxPair (if r.2 > q.2 then r else q) rest).2 := ih _
    have hq : q.2 ≤ (if r.2 > q.2 then r else q).2 := by
      by_cases hr : r.2 > q.2
      · rw [if_pos hr]; exact le_of_lt hr
      · rw [if_neg hr]
    have hr2 : r.2 ≤ (if r.2 > q.2 then r else q).2 := by
      by_cases hr : r.2 > q.2
      · rw [if_pos hr]
      · rw [if_neg hr]; exact not_lt.mp hr
    have hhead :=
      hm (if r.2 > q.2 then r else q) (List.mem_cons_self _ _)
    rcases List.mem_cons.mp hp with rfl | hp2
    · exact le_trans hq (by simpa [pyMaxPair] using hhead)
    · rcases List.mem_cons.mp hp2 with rfl | hp3
      · exact le_trans hr2 (by simpa [pyMaxPair] using hhead)
      · simpa [pyMaxPair] using hm p (by simp [hp3])

theorem pyMaxPair_snd (q : String × Rat) (l : List (String × Rat)) :
    (pyMaxPair q l).2 = (l.map Prod.snd).foldl max q.2 := by
  induction l generalizing q with
  | nil => rfl
  | cons r rest ih =>
    simp only [pyMaxPair, List.map_cons, List.foldl_cons]
    rw [ih]
    congr 1
    by_cases hr : r.2 > q.2
    · rw [if_pos hr]; exact (max_eq_right (le_of_lt hr)).symm
    · rw [if_neg hr]; exact (max_eq_left (not_lt.mp hr)).symm

theorem pyMaxPair_find (q : String × Rat) (l : List (String × Rat)) :
    (q :: l).find? (fun p => p.2 == (pyMaxPair q l).2) = some (pyMaxPair q l) := by
  induction l generalizing q with
  | nil => simp [pyMaxPair, List.find?_cons]
  | cons r rest ih =>
    by_cases hr : r.2 > q.2
    · have hM : pyMaxPair q (r :: rest) = pyMaxPair r rest := by
        simp [pyMaxPair, if_pos hr]
      have hge : r.2 ≤ (pyMaxPair r rest).2 := pyMaxPair_ge r rest r (by simp)
      have hqne : (q.2 == (pyMaxPair r rest).2) = false := by
        rw [beq_eq_false_iff_ne]
        exact ne_of_lt (lt_of_lt_of_le hr hge)
      rw [hM, List.find?_cons]
      simp only [hqne]
      exact ih r
    · have hM : pyMaxPair q (r :: rest) = pyMaxPair q rest := by
        simp [pyMaxPair, if_neg hr]
      have ihq := ih q
      rw [hM]
      rw [List.find?_cons] at ihq ⊢
      cases hq : (q.2 == (pyMaxPair q rest).2) with
      | true => simp only [hq] at ihq ⊢; exact ihq
      | false =>
        have hqle : q.2 ≤ (pyMaxPair q rest).2 := pyMaxPair_ge q rest q (by simp)
        have hqlt : q.2 < (pyMaxPair q rest).2 :=
          lt_of_le_of_ne hqle (by simpa [beq_eq_false_iff_ne] using hq)
        have hrne : (r.2 == (pyMaxPair q rest).2) = false := by
          rw [beq_eq_false_iff_ne]
          exact ne_of_lt (lt_of_le_of_lt (not_lt.mp hr) hqlt)
        simp only [hq] at ihq
        rw [List.find?_cons]
        simp only [hrne]
        exact ihq

/-! Lemmas about the context store and the cache. -/

theorem ctxMatches_mk (cid : Nat) (t k : String) (cid' : Nat) (t' k' : String)
    (v : CtxValue) (r : Rat) :
    ctxMatches cid' t' k' ⟨cid, t, k, v, r⟩ = true ↔
      (cid = cid' ∧ t = t' ∧ k = k') := by
  simp [ctxMatches, Bool.and_assoc, and_assoc]

theorem getContextFirst_set_same (ctxs : List ChatContext) (cid : Nat)
    (t k : String) (v : CtxValue) (r : Rat) :
    getContextFirst (setContext ctxs cid t k v r) cid t k = some ⟨cid, t, k, v, r⟩ := by
  unfold getContextFirst setContext
  rw [find?_append_of_none]
  · simp [List.find?_cons, ctxMatches]
  · intro x hx
    have := (List.mem_filter.mp hx).2
    simpa using this

theorem getContextFirst_set_other (ctxs : List ChatContext) (cid : Nat)
    (t k : String) (v : CtxValue) (r : Rat) (cid' : Nat) (t' k' : String)
    (hne : ¬(cid = cid' ∧ t = t' ∧ k = k')) :
    getContextFirst (setContext ctxs cid t k v r) cid' t' k' =
      getContextFirst ctxs cid' t' k' := by
  unfold getContextFirst setContext
  have hdisj : ∀ x : ChatContext,
      ctxMatches cid' t' k' x = true → (!ctxMatches cid t k x) = true := by
    intro x hx
    simp only [ctxMatches, Bool.and_eq_true, beq_iff_eq] at hx
    simp only [Bool.not_eq_true', ctxMatches, Bool.and_eq_false_iff]
    by_contra hcon
    push_neg at hcon
    rcases hcon with ⟨⟨h1, h2⟩, h3⟩
    rw [Bool.ne_false_iff, beq_iff_eq] at h1 h2 h3
    exact hne ⟨by rw [← h1, hx.1.1], by rw [← h2, hx.1.2], by rw [← h3, hx.2]⟩
  have h1 : (ctxs.filter (fun c => !ctxMatches cid t k c)).find? (ctxMatches cid' t' k')
      = ctxs.find? (ctxMatches cid' t' k') :=
    find?_filter_of_imp _ _ _ hdisj
  cases h2 : ctxs.find? (ctxMatches cid' t' k') with
  | some a =>
    exact find?_append_some _ (h1.trans h2)
  | none =>
    rw [find?_append_of_none]
    · simp only [List.find?_cons]
      have : ctxMatches cid' t' k' ⟨cid, t, k, v, r⟩ = false := by
        rw [← Bool.not_eq_true, ctxMatches_mk]
        exact hne
      simp [this]
    · intro x hx
      rw [← Bool.not_eq_true]
      exact (List.find?_eq_none.mp (h1.trans h2)) x hx

theorem topicsCount_set_same (ctxs : List ChatContext) (cid : Nat)
    (v : CtxValue) (r : Rat) :
    topicsCount (setContext ctxs cid "preferences" "topics_of_interest" v r) cid = 1 := by
  unfold topicsCount setContext
  rw [List.countP_append]
  have h0 : (ctxs.filter
      (fun c => !ctxMatches cid "preferences" "topics_of_interest" c)).countP
      (ctxMatches cid "preferences" "topics_of_interest") = 0 := by
    rw [List.countP_eq_zero]
    intro a ha
    have := (List.mem_filter.mp ha).2
    simpa using this
  rw [h0]
  simp [List.countP_cons, ctxMatches]

theorem topicsCount_set_other (ctxs : List ChatContext) (cid : Nat)
    (t k : String) (v : CtxValue) (r : Rat) (cid' : Nat)
    (hne : ¬(cid = cid' ∧ t = "preferences" ∧ k = "topics_of_interest")) :
    topicsCount (setContext ctxs cid t k v r) cid' = topicsCount ctxs cid' := by
  unfold topicsCount setContext
  rw [List.countP_append]
  have hdisj : ∀ x : ChatContext,
      ctxMatches cid' "preferences" "topics_of_interest" x = true →
        (!ctxMatches cid t k x) = true := by
    intro x hx
    simp only [ctxMatches, Bool.and_eq_true, beq_iff_eq] at hx
    simp only [Bool.not_eq_true', ctxMatches, Bool.and_eq_false_iff]
    by_contra hcon
    push_neg at hcon
    rcases hcon with ⟨⟨h1, h2⟩, h3⟩
    rw [Bool.ne_false_iff, beq_iff_eq] at h1 h2 h3
    exact hne ⟨by rw [← h1, hx.1.1], by rw [← h2, hx.1.2], by rw [← h3, hx.2]⟩
  rw [countP_filter_of_imp _ _ _ hdisj]
  have : ctxMatches cid' "preferences" "topics_of_interest" ⟨cid, t, k, v, r⟩ = false := by
    rw [← Bool.not_eq_true, ctxMatches_mk]
    exact hne
  simp [List.countP_cons, this]

theorem cacheGet_set_same (c : List CacheEntry) (k : String) (v : IntentAnalysis)
    (e now : Nat) :
    cacheGet (cacheSet c k v e) now k = if now < e then some v else none := by
  unfold cacheGet cacheSet
  by_cases h : now < e
  · simp [List.find?_cons, h]
  · simp only [List.find?_cons]
    have hc : (k == k && decide (now < e)) = false := by simp [h]
    simp only [hc]
    rw [if_neg h]
    have : (c.filter (fun en => en.key != k)).find?
        (fun en => en.key == k && decide (now < en.expiresAt)) = none := by
      rw [List.find?_eq_none]
      intro x hx
      have hxk := (List.mem_filter.mp hx).2
      simp only [bne_iff_ne, ne_eq] at hxk
      simp [hxk]
    simp [this]

/-- Saving a user message changes only the message list and the id counter. -/
theorem save_user_message_cache (st : St) (cid : Nat) (content : String) :
    (save_user_message st cid content).1.cache = st.cache := rfl

/-- Saving a user message leaves the user table unchanged. -/
theorem save_user_message_users (st : St) (cid : Nat) (content : String) :
    (save_user_message st cid content).1.users = st.users := rfl

/-- Saving a user message leaves the conversations unchanged. -/
theorem save_user_message_conversations (st : St) (cid : Nat) (content : String) :
    (save_user_message st cid content).1.conversations = st.conversations := rfl

/-- Saving a user message appends exactly that message row. -/
theorem save_user_message_messages (st : St) (cid : Nat) (content : String) :
    (save_user_message st cid content).1.messages =
      st.messages ++ [(save_user_message st cid content).2] := rfl

/-! Claim theorems. -/

/-- C1: for every conversation whose age exceeds the fixed 24-hour timeout,
`process_user_message` returns the Expired result ("Conversa expirada" with a
suggestion) and persists no new message — the whole store is returned
unchanged — regardless of the conversation's status field. -/
theorem C1_expired_conversation_rejected
    (env : Env) (st : St) (cid : Nat) (msg : String) (conv : Conversation)
    (hfind : st.conversations.find? (fun c => c.id == cid) = some conv)
    (hexp : is_expired env.now conv = true) :
    process_user_message env st cid msg = (st, processExpiredDict) := by
  unfold process_user_message
  rw [hfind]
  simp [hexp]

/-- Witness for C1 at a concrete input: a conversation created at time 0 and
processed at time 100000 (past the 24-hour timeout), with status
"completed" — exercising the "regardless of status" part. -/
theorem C1_expired_conversation_rejected_witness :
    process_user_message envLate stCompleted 1 "oi" = (stCompleted, processExpiredDict) :=
  C1_expired_conversation_rejected envLate stCompleted 1 "oi"
    ⟨1, 1, "general_fitness", "completed", 0, "gpt-3.5-turbo", none⟩
    (by decide) (by decide)

/-- C3: for a user who has an active conversation created strictly less than
2 hours ago (unique such conversation, per the spec's resumability invariant),
`start_conversation` with no initial message returns the "resumed" result
referencing that conversation's id and leaves the whole store unchanged. -/
theorem C3_resume_recent_conversation
    (env : Env) (st : St) (uid : Nat) (ctype : String) (rc : Conversation)
    (hmem : rc ∈ st.conversations)
    (huser : rc.userId = uid)
    (hstatus : rc.status = "active")
    (hrecent : env.now < rc.createdAt + 7200)
    (huniq : ∀ c ∈ st.conversations, recentPred env.now uid c = true → c = rc) :
    start_conversation env st uid ctype none = (st, resumedDict rc) := by
  have hpred : recentPred env.now uid rc = true := by
    simp [recentPred, huser, hstatus, Nat.le_of_lt hrecent]
  have hfind : st.conversations.find? (recentPred env.now uid) = some rc :=
    find?_eq_some_of_unique _ _ _ hmem hpred huniq
  unfold start_conversation
  rw [hfind]
  simp [pyStrTruthy]

/-- Witness for C3 at a concrete input: the fixture user's active conversation
created at time 0, resumed at time 0. -/
theorem C3_resume_recent_conversation_witness :
    start_conversation env0 stA 1 "general_fitness" none =
      (stA, resumedDict ⟨1, 1, "general_fitness", "active", 0, "gpt-3.5-turbo", none⟩) :=
  C3_resume_recent_conversation env0 stA 1 "general_fitness"
    ⟨1, 1, "general_fitness", "active", 0, "gpt-3.5-turbo", none⟩
    (by decide) (by decide) (by decide) (by decide) (by decide)

/-- Counterexample to C9 as stated: an unexpected internal failure in
`end_conversation` is converted into the bare result
`{'error': 'Erro ao finalizar conversa'}`, which carries no retry suggestion
(no "suggestion" and no "fallback" key), so not every operation converts
internal failures into "a generic error result with a retry suggestion". -/
theorem C9_end_error_lacks_retry_suggestion :
    end_conversation_caught env0 stA 1 none
        (some (.other "unexpected database failure")) =
      [("error", DVal.str "Erro ao finalizar conversa")] ∧
    endErrorDict.lookup "suggestion" = none ∧
    endErrorDict.lookup "fallback" = none := by
  refine ⟨rfl, rfl, rfl⟩

/-- C9 amended: no orchestrator operation raises — each is a total function
into a result dictionary; an internal failure is converted into the fixed
generic error result of that operation (with a retry suggestion for
`start_conversation` and `process_user_message`, a bare error for
`end_conversation`, the not-found result for a `DoesNotExist` lookup), the
converted result never depends on the underlying cause, and when the body
completes the caught operation returns exactly the body's result. -/
theorem C9_no_exception_escapes
    (env : Env) (st : St) (uid cid : Nat) (ctype msg : String)
    (im : Option String) (rating : Option Rat) :
    (∀ e : PyExc,
      start_conversation_caught env st uid ctype im (some e) = startErrorDict) ∧
    (∀ s : String,
      process_user_message_caught env st cid msg (some (.other s)) = processErrorDict) ∧
    (process_user_message_caught env st cid msg (some .doesNotExist) = processNotFoundDict) ∧
    (∀ s : String,
      end_conversation_caught env st cid rating (some (.other s)) = endErrorDict) ∧
    (end_conversation_caught env st cid rating (some .doesNotExist) = endNotFoundDict) ∧
    (start_conversation_caught env st uid ctype im none =
      (start_conversation env st uid ctype im).2) ∧
    (process_user_message_caught env st cid msg none =
      (process_user_message env st cid msg).2) ∧
    (end_conversation_caught env st cid rating none =
      (end_conversation env st cid rating).2) := by
  refine ⟨fun e => ?_, fun s => rfl, rfl, fun s => rfl, rfl, rfl, rfl, rfl⟩
  cases e <;> rfl

/-- Counterexample to C8 as stated: `end_conversation` with the supplied
rating 0 reports `rating_saved = true` (the flag tests `is not None`) but the
stored rating remains unset, because the store is guarded by Python truthiness
(`if user_rating:`), which 0.0 fails — so not every supplied rating is
stored. -/
theorem C8_zero_rating_not_stored :
    ((end_conversation env0 stA 1 (some 0)).2.lookup "rating_saved" =
      some (DVal.bool true)) ∧
    ((end_conversation env0 stA 1 (some 0)).1.conversations.map
      (·.userSatisfactionRating) = [none]) := by
  constructor
  · rfl
  · rfl

/-- C8 amended: for every existing conversation id, `end_conversation` sets
the status to "completed", stores the supplied rating when it is truthy (in
particular any non-zero rating such as 4.5) and leaves the stored rating
unchanged when the supplied rating is 0 or absent, and returns
`conversation_ended`, the message count, the elapsed duration in minutes and
`rating_saved = (a rating was supplied)`; for an unknown id it returns the
not-found result. -/
theorem C8_end_conversation_behaviour
    (env : Env) (st : St) (cid : Nat) (rating : Option Rat) :
    (∀ conv, st.conversations.find? (fun c => c.id == cid) = some conv →
      ((end_conversation env st cid rating).1.conversations.find?
          (fun c => c.id == cid) =
        some { conv with
               status := "completed"
               userSatisfactionRating :=
                 if pyRatTruthy rating then rating
                 else conv.userSatisfactionRating }) ∧
      (end_conversation env st cid rating).2 =
        [("conversation_ended", DVal.bool true),
         ("total_messages", DVal.nat (message_count st cid)),
         ("duration_minutes",
           DVal.num (((env.now : Rat) - (conv.createdAt : Rat)) / 60)),
         ("rating_saved", DVal.bool rating.isSome)]) ∧
    (st.conversations.find? (fun c => c.id == cid) = none →
      end_conversation env st cid rating = (st, endNotFoundDict)) := by
  constructor
  · intro conv h
    have hc : (conv.id == cid) = true := by
      have := List.find?_some h
      simpa using this
    unfold end_conversation
    rw [h]
    have hceq : conv.id = cid := by simpa using hc
    subst hceq
    by_cases hr : pyRatTruthy rating = true
    · simp only [hr, if_true]
      refine ⟨?_, rfl⟩
      rw [find?_map_of_pred, h]
      · simp
      · intro x
        by_cases hx : (x.id == conv.id) = true <;> simp [hx]
    · simp only [Bool.not_eq_true] at hr
      simp only [hr, Bool.false_eq_true, if_false]
      refine ⟨?_, rfl⟩
      rw [find?_map_of_pred, h]
      · simp
      · intro x
        by_cases hx : (x.id == conv.id) = true <;> simp [hx]
  · intro h
    unfold end_conversation
    rw [h]

/-- Witness for C8 at a concrete input: ending the fixture conversation with
rating 4.5 stores the rating 4.5 and reports `rating_saved = true` together
with the message count (0) and the elapsed duration. -/
theorem C8_end_conversation_behaviour_witness :
    ((end_conversation env0 stA 1 (some ((9 : Rat) / 2))).1.conversations.find?
        (fun c => c.id == 1) =
      some ⟨1, 1, "general_fitness", "completed", 0, "gpt-3.5-turbo",
            some ((9 : Rat) / 2)⟩) ∧
    (end_conversation env0 stA 1 (some ((9 : Rat) / 2))).2 =
      [("conversation_ended", DVal.bool true),
       ("total_messages", DVal.nat 0),
       ("duration_minutes", DVal.num 0),
       ("rating_saved", DVal.bool true)] := by
  have h := (C8_end_conversation_behaviour env0 stA 1 (some ((9 : Rat) / 2))).1
    ⟨1, 1, "general_fitness", "active", 0, "gpt-3.5-turbo", none⟩ (by decide)
  refine ⟨?_, ?_⟩
  · rw [h.1]
    norm_num [pyRatTruthy]
  · rw [h.2]
    norm_num [message_count, stA, env0]

/-- Counting messages is unaffected by back-filling the detected intent on an
existing message, for any predicate that ignores `intentDetected`. -/
theorem countP_intent_backfill (msgs : List Message) (mid : Nat) (intent : String)
    (p : Message → Bool)
    (hp : ∀ m : Message, p { m with intentDetected := some intent } = p m) :
    (msgs.map (fun (m : Message) =>
      if m.id == mid then { m with intentDetected := some intent } else m)).countP p
      = msgs.countP p := by
  rw [List.countP_map]
  apply List.countP_congr
  intro x hx
  simp only [Function.comp]
  by_cases h : (x.id == mid) = true
  · rw [if_pos h, hp]
  · rw [if_neg h]

set_option maxRecDepth 4000 in
/-- Counterexample to C2 as stated: the fallback table does not hold nine
fixed texts, one per intent — `equipment_question` and `schedule_planning`
have no template of their own and fall back to the `general_question` text, so
the nine intents map to only seven distinct canned texts. -/
theorem C2_fallback_table_has_seven_texts :
    fallback_text "Ana" "equipment_question" = fallback_text "Ana" "general_question" ∧
    fallback_text "Ana" "schedule_planning" = fallback_text "Ana" "general_question" ∧
    ((nine_intents.map (fallback_text "Ana")).dedup).length = 7 := by
  refine ⟨rfl, rfl, by decide⟩

/-- C2 amended: whenever the completion backend is unavailable,
`process_user_message` on a non-expired conversation returns
`method = "rule_based_fallback"` and its response text exactly equals the
canned template table applied to the detected intent, where the table holds
seven fixed texts (one each for seven intents, with `equipment_question`,
`schedule_planning` and unknown intents receiving the `general_question`
default), interpolating the user's first name or the placeholder "amigo(a)"
when the first name is absent. -/
theorem C2_fallback_method_and_template
    (env : Env) (st : St) (cid : Nat) (msg : String) (conv : Conversation)
    (hfind : st.conversations.find? (fun c => c.id == cid) = some conv)
    (hexp : is_expired env.now conv = false)
    (hai : env.aiAvailable = false) :
    ((process_user_message env st cid msg).2.lookup "method" =
       some (DVal.str "rule_based_fallback")) ∧
    ((process_user_message env st cid msg).2.lookup "response" =
       some (DVal.str (fallback_text
         (pyOrStr (firstNameOf st.users conv.userId) "amigo(a)")
         (analyze_message_intent env st.cache msg).1.intent))) := by
  unfold process_user_message
  rw [hfind]
  simp only [hexp, Bool.false_eq_true, if_false]
  unfold generate_ai_response
  simp only [hai, Bool.not_false, if_true]
  simp [List.lookup, generate_fallback_response, save_user_message_cache,
    save_user_message_users]

/-- Witness for C2 at a concrete input: with the backend down, the message
"sinto dor" is classified as `injury_concern` and answered with exactly the
injury template interpolating "Ana". -/
theorem C2_fallback_method_and_template_witness :
    ((process_user_message env0 stA 1 "sinto dor").2.lookup "method" =
      some (DVal.str "rule_based_fallback")) ∧
    ((process_user_message env0 stA 1 "sinto dor").2.lookup "response" =
      some (DVal.str (fallback_text "Ana" "injury_concern"))) := by
  have h := C2_fallback_method_and_template env0 stA 1 "sinto dor"
    ⟨1, 1, "general_fitness", "active", 0, "gpt-3.5-turbo", none⟩
    (by decide) (by decide) (by decide)
  refine ⟨h.1, ?_⟩
  rw [h.2]
  rfl

/-- Counterexample to C5 as stated: the rule-based-fallback success branch of
`process_user_message` persists its assistant message but returns a result
without the response latency, the confidence score, the suggested actions or
the exercise references — those keys are absent from the returned
dictionary. -/
theorem C5_fallback_result_omits_fields :
    ((process_user_message env0 stA 1 "oi").2.lookup "method" =
      some (DVal.str "rule_based_fallback")) ∧
    ((process_user_message env0 stA 1 "oi").2.lookup "response_time_ms" = none) ∧
    ((process_user_message env0 stA 1 "oi").2.lookup "confidence_score" = none) ∧
    ((process_user_message env0 stA 1 "oi").2.lookup "suggested_actions" = none) ∧
    ((process_user_message env0 stA 1 "oi").2.lookup "workout_references" = none) := by
  refine ⟨?_, ?_, ?_, ?_, ?_⟩ <;> rfl

/-- C5 amended: every success branch of `process_user_message` persists
exactly one assistant message and returns the detected intent; the AI-powered
branch additionally returns the response latency, the confidence score and the
extracted suggested actions and exercise references, while the
rule-based-fallback branch returns none of those four fields. -/
theorem C5_success_branches_persist_one_ai_message
    (env : Env) (st : St) (cid : Nat) (msg : String) (conv : Conversation)
    (hfind : st.conversations.find? (fun c => c.id == cid) = some conv)
    (hexp : is_expired env.now conv = false) :
    (countAi (process_user_message env st cid msg).1 cid = countAi st cid + 1 ∧
    ((process_user_message env st cid msg).2.lookup "intent_detected" =
      some (DVal.str (analyze_message_intent env st.cache msg).1.intent))) ∧
    (((process_user_message env st cid msg).2.lookup "method" =
        some (DVal.str "ai_powered")) ∨
     ((process_user_message env st cid msg).2.lookup "method" =
        some (DVal.str "rule_based_fallback"))) ∧
    ((process_user_message env st cid msg).2.lookup "method" =
        some (DVal.str "ai_powered") →
      ((process_user_message env st cid msg).2.lookup "response_time_ms" =
        some (DVal.num env.elapsedMs)) ∧
      ((process_user_message env st cid msg).2.lookup "confidence_score").isSome ∧
      ((process_user_message env st cid msg).2.lookup "suggested_actions").isSome ∧
      ((process_user_message env st cid msg).2.lookup "workout_references").isSome) ∧
    ((process_user_message env st cid msg).2.lookup "method" =
        some (DVal.str "rule_based_fallback") →
      ((process_user_message env st cid msg).2.lookup "response_time_ms" = none) ∧
      ((process_user_message env st cid msg).2.lookup "confidence_score" = none) ∧
      ((process_user_message env st cid msg).2.lookup "suggested_actions" = none) ∧
      ((process_user_message env st cid msg).2.lookup "workout_references" = none)) := by
  have hceq : conv.id = cid := by
    have := List.find?_some hfind
    simpa using this
  subst hceq
  unfold process_user_message
  rw [hfind]
  simp only [hexp, Bool.false_eq_true, if_false]
  split
  · refine ⟨⟨?_, ?_⟩, ?_, ?_, ?_⟩
    · simp [countAi, save_ai_message, save_user_message, List.countP_append]
      apply List.countP_congr
      intro x hx
      simp only [Function.comp]
      by_cases h : x.id = st.nextMsgId
      · rw [if_pos h]
      · rw [if_neg h]
    · simp [List.lookup, save_user_message]
    · simp [List.lookup]
    · simp [List.lookup]
    · simp [List.lookup]
  · refine ⟨⟨?_, ?_⟩, ?_, ?_, ?_⟩
    · simp [countAi, save_ai_message, save_user_message, List.countP_append]
      apply List.countP_congr
      intro x hx
      simp only [Function.comp]
      by_cases h : x.id = st.nextMsgId
      · rw [if_pos h]
      · rw [if_neg h]
    · simp [List.lookup, save_user_message]
    · simp [List.lookup]
    · simp [List.lookup]
    · simp [List.lookup]

/-- Witness for C5 at a concrete input: processing "oi" on the fixture
conversation stores exactly one new assistant message. -/
theorem C5_success_branches_persist_one_ai_message_witness :
    countAi (process_user_message env0 stA 1 "oi").1 1 = countAi stA 1 + 1 :=
  ((C5_success_branches_persist_one_ai_message env0 stA 1 "oi"
    ⟨1, 1, "general_fitness", "active", 0, "gpt-3.5-turbo", none⟩
    (by decide) (by decide)).1).1

/-- A live cache hit short-circuits intent analysis: the cached payload is
returned unchanged and the cache is not written. -/
theorem analyze_hit (env : Env) (cache : List CacheEntry) (t : String)
    (v : IntentAnalysis) (h : cacheGet cache env.now (cacheKey t) = some v) :
    analyze_message_intent env cache t = (v, cache) := by
  unfold analyze_message_intent
  rw [h]

/-- C6: intent analysis is idempotent under caching — after a first call that
missed the cache, the entry is stored under the lower-cased-text key with TTL
3600 s when it came from AI classification and 1800 s when it came from the
rule-based analysis; any second call on text with the identical lower-cased
content while that entry is live returns the identical cached payload and
leaves the cache unchanged. -/
theorem C6_classification_cache_idempotent
    (env1 env2 : Env) (cache0 : List CacheEntry) (t1 t2 : String)
    (hlow : pyLower t1 = pyLower t2)
    (hmiss : cacheGet cache0 env1.now (cacheKey t1) = none) :
    (∀ now2 : Nat,
      cacheGet (analyze_message_intent env1 cache0 t1).2 now2 (cacheKey t2) =
        if now2 < env1.now +
            (if env1.aiAvailable && (env1.aiIntent t1).isSome then 3600 else 1800)
        then some (analyze_message_intent env1 cache0 t1).1 else none) ∧
    (env2.now < env1.now +
        (if env1.aiAvailable && (env1.aiIntent t1).isSome then 3600 else 1800) →
      analyze_message_intent env2 (analyze_message_intent env1 cache0 t1).2 t2 =
        ((analyze_message_intent env1 cache0 t1).1,
         (analyze_message_intent env1 cache0 t1).2)) := by
  have hkey : cacheKey t2 = cacheKey t1 := by
    unfold cacheKey
    rw [hlow]
  by_cases hcase : env1.aiAvailable = true ∧ (env1.aiIntent t1).isSome = true
  · obtain ⟨ha, hsome⟩ := hcase
    obtain ⟨ai, hai⟩ := Option.isSome_iff_exists.mp hsome
    have hstep : analyze_message_intent env1 cache0 t1 =
        (ai, cacheSet cache0 (cacheKey t1) ai (env1.now + 3600)) := by
      unfold analyze_message_intent
      rw [hmiss, ha]
      simp [hai]
    have httl :
        (if env1.aiAvailable && (env1.aiIntent t1).isSome then 3600 else 1800)
          = 3600 := by
      simp [ha, hsome]
    rw [hstep, httl]
    constructor
    · intro now2
      rw [hkey]
      exact cacheGet_set_same _ _ _ _ _
    · intro hlt
      apply analyze_hit
      rw [hkey, cacheGet_set_same]
      simp [hlt]
  · have httl :
        (if env1.aiAvailable && (env1.aiIntent t1).isSome then 3600 else 1800)
          = 1800 := by
      rcases Decidable.not_and_iff_or_not.mp hcase with h | h
      · have hf : env1.aiAvailable = false := by simpa using h
        simp [hf]
      · have hf : (env1.aiIntent t1).isSome = false := by simpa using h
        simp [hf]
    have hstep : analyze_message_intent env1 cache0 t1 =
        (rule_based_intent_analysis t1,
         cacheSet cache0 (cacheKey t1) (rule_based_intent_analysis t1)
           (env1.now + 1800)) := by
      unfold analyze_message_intent
      rw [hmiss]
      by_cases ha : env1.aiAvailable = true
      · have hnone : env1.aiIntent t1 = none := by
          rcases Decidable.not_and_iff_or_not.mp hcase with h | h
          · exact absurd ha h
          · simpa using h
        rw [ha, hnone]
        simp
      · have hf : env1.aiAvailable = false := by simpa using ha
        simp [hf]
    rw [hstep, httl]
    constructor
    · intro now2
      rw [hkey]
      exact cacheGet_set_same _ _ _ _ _
    · intro hlt
      apply analyze_hit
      rw [hkey, cacheGet_set_same]
      simp [hlt]

/-- Witness for C6 at a concrete input: analysing "oi" at time 0 with the
backend down caches the rule-based payload; re-analysing "oi" at time 10
(within the 1800 s TTL) returns the identical payload and cache. -/
theorem C6_classification_cache_idempotent_witness :
    analyze_message_intent envSoon (analyze_message_intent env0 [] "oi").2 "oi" =
      ((analyze_message_intent env0 [] "oi").1,
       (analyze_message_intent env0 [] "oi").2) :=
  (C6_classification_cache_idempotent env0 envSoon [] "oi" "oi" rfl
    (by decide)).2 (by decide)

/-- The Python slice `l[-n:]` has length at most `n`. -/
theorem length_pyTakeLast (n : Nat) (l : List String) :
    (pyTakeLast n l).length ≤ n := by
  unfold pyTakeLast
  rw [List.length_drop]
  omega

/-- The Python slice `l[-(n+1):]` always keeps the last element. -/
theorem mem_pyTakeLast_last (n : Nat) (l : List String) (i : String) :
    i ∈ pyTakeLast (n + 1) (l ++ [i]) := by
  unfold pyTakeLast
  have hlen : (l ++ [i]).length = l.length + 1 := by simp
  by_cases h : l.length + 1 ≤ n + 1
  · have hz : (l ++ [i]).length - (n + 1) = 0 := by
      rw [hlen]
      omega
    rw [hz]
    simp
  · have hle : (l ++ [i]).length - (n + 1) ≤ l.length := by
      rw [hlen]
      omega
    rw [List.drop_append_of_le_length hle]
    simp

/-- After `_update_conversation_context`, the stored `topics_of_interest`
record of the conversation holds relevance 0.6 and the topics list it held
before, unchanged when the detected intent was already present, otherwise
extended by the intent and truncated to the last five entries. -/
theorem update_topics_record (cid : Nat) (contexts : List ChatContext)
    (message : String) (ia : IntentAnalysis) :
    topicsRecord (update_conversation_context cid contexts message ia) cid =
      some ⟨cid, "preferences", "topics_of_interest",
        .topicsVal (if ia.intent ∈ topicsList contexts cid
          then topicsList contexts cid
          else pyTakeLast 5 (topicsList contexts cid ++ [ia.intent])),
        (3 : Rat) / 5⟩ := by
  unfold update_conversation_context
  by_cases hmsg : (pySplit message).length > 20
  · simp only [if_pos hmsg]
    have hpersist : getContextFirst (setContext contexts cid "preferences"
        "message_style" (.messageStyle true (pySplit message).length)
        ((7 : Rat) / 10)) cid "preferences" "topics_of_interest" =
        getContextFirst contexts cid "preferences" "topics_of_interest" :=
      getContextFirst_set_other _ _ _ _ _ _ _ _ _ (by simp)
    rw [hpersist]
    cases hr : getContextFirst contexts cid "preferences" "topics_of_interest" with
    | none =>
      unfold topicsRecord
      rw [getContextFirst_set_same]
      unfold topicsList topicsRecord
      rw [hr]
      simp [topicsOfRecord, pyTakeLast]
    | some current =>
      unfold topicsRecord
      rw [getContextFirst_set_same]
      unfold topicsList topicsRecord
      rw [hr]
  · simp only [if_neg hmsg]
    cases hr : getContextFirst contexts cid "preferences" "topics_of_interest" with
    | none =>
      unfold topicsRecord
      rw [getContextFirst_set_same]
      unfold topicsList topicsRecord
      rw [hr]
      simp [topicsOfRecord, pyTakeLast]
    | some current =>
      unfold topicsRecord
      rw [getContextFirst_set_same]
      unfold topicsList topicsRecord
      rw [hr]


/-- After `_update_conversation_context` there is exactly one stored
`topics_of_interest` record for the conversation (upsert semantics). -/
theorem update_topics_count (cid : Nat) (contexts : List ChatContext)
    (message : String) (ia : IntentAnalysis) :
    topicsCount (update_conversation_context cid contexts message ia) cid = 1 := by
  unfold update_conversation_context
  by_cases hmsg : (pySplit message).length > 20
  · simp only [if_pos hmsg]
    cases getContextFirst (setContext contexts cid "preferences" "message_style"
        (.messageStyle true (pySplit message).length) ((7 : Rat) / 10)) cid
        "preferences" "topics_of_interest" with
    | none => exact topicsCount_set_same _ _ _ _
    | some current => exact topicsCount_set_same _ _ _ _
  · simp only [if_neg hmsg]
    cases getContextFirst contexts cid "preferences" "topics_of_interest" with
    | none => exact topicsCount_set_same _ _ _ _
    | some current => exact topicsCount_set_same _ _ _ _

/-- C7: the stored `topics_of_interest` list always contains each newly
detected intent (appended only if not already present — the list is unchanged
when the intent is present, otherwise it becomes the last five entries of the
old list extended by the intent), never exceeds length 5, carries relevance
0.6, and is maintained with upsert-by-key semantics: there is a single stored
record, and writing intents A then B from an empty record yields one record
whose list is exactly [A, B]. -/
theorem C7_topics_of_interest_invariant (cid : Nat) (contexts : List ChatContext)
    (message : String) (ia : IntentAnalysis) :
    (ia.intent ∈ topicsList (update_conversation_context cid contexts message ia) cid) ∧
    (topicsCount (update_conversation_context cid contexts message ia) cid = 1) ∧
    (topicsRelevance (update_conversation_context cid contexts message ia) cid =
      some ((3 : Rat) / 5)) ∧
    ((topicsList contexts cid).length ≤ 5 →
      (topicsList (update_conversation_context cid contexts message ia) cid).length ≤ 5) ∧
    (ia.intent ∈ topicsList contexts cid →
      topicsList (update_conversation_context cid contexts message ia) cid =
        topicsList contexts cid) ∧
    (ia.intent ∉ topicsList contexts cid →
      topicsList (update_conversation_context cid contexts message ia) cid =
        pyTakeLast 5 (topicsList contexts cid ++ [ia.intent])) ∧
    (topicsRecord contexts cid = none → ∀ (message2 : String) (ia2 : IntentAnalysis),
      ia2.intent ≠ ia.intent →
      topicsList (update_conversation_context cid
        (update_conversation_context cid contexts message ia) message2 ia2) cid =
        [ia.intent, ia2.intent] ∧
      topicsCount (update_conversation_context cid
        (update_conversation_context cid contexts message ia) message2 ia2) cid = 1) := by
  have hrec := update_topics_record cid contexts message ia
  have hlist : topicsList (update_conversation_context cid contexts message ia) cid =
      (if ia.intent ∈ topicsList contexts cid then topicsList contexts cid
       else pyTakeLast 5 (topicsList contexts cid ++ [ia.intent])) := by
    unfold topicsList topicsRecord
    unfold topicsRecord at hrec
    rw [hrec]
    rfl
  refine ⟨?_, update_topics_count cid contexts message ia, ?_, ?_, ?_, ?_, ?_⟩
  · rw [hlist]
    by_cases hmem : ia.intent ∈ topicsList contexts cid
    · rw [if_pos hmem]
      exact hmem
    · rw [if_neg hmem]
      exact mem_pyTakeLast_last 4 _ _
  · unfold topicsRelevance
    rw [hrec]
    rfl
  · intro h
    rw [hlist]
    by_cases hmem : ia.intent ∈ topicsList contexts cid
    · rw [if_pos hmem]
      exact h
    · rw [if_neg hmem]
      exact length_pyTakeLast 5 _
  · intro hmem
    rw [hlist, if_pos hmem]
  · intro hnm
    rw [hlist, if_neg hnm]
  · intro hnone message2 ia2 hne
    have h0 : topicsList contexts cid = [] := by
      unfold topicsList
      rw [hnone]
      rfl
    have hlist1 : topicsList (update_conversation_context cid contexts message ia) cid =
        [ia.intent] := by
      rw [hlist, h0]
      simp [pyTakeLast]
    have hrec2 := update_topics_record cid
      (update_conversation_context cid contexts message ia) message2 ia2
    have hlist2 : topicsList (update_conversation_context cid
        (update_conversation_context cid contexts message ia) message2 ia2) cid =
        [ia.intent, ia2.intent] := by
      unfold topicsList topicsRecord
      unfold topicsRecord at hrec2
      rw [hrec2]
      show (if ia2.intent ∈ topicsList
          (update_conversation_context cid contexts message ia) cid then _
        else _) = _
      rw [hlist1]
      have hnm : ia2.intent ∉ [ia.intent] := by simp [hne]
      rw [if_neg hnm]
      simp [pyTakeLast]
    exact ⟨hlist2, update_topics_count _ _ _ _⟩


/-- Witness for C7 at a concrete input: recording a sixth distinct intent on a
conversation that already stores five topics keeps the list at five entries
and contains the new intent. -/
theorem C7_topics_of_interest_invariant_witness :
    (iaInjury.intent ∈
      topicsList (update_conversation_context 1 ctxFive "dor" iaInjury) 1) ∧
    ((topicsList (update_conversation_context 1 ctxFive "dor" iaInjury) 1).length
      ≤ 5) := by
  have h := C7_topics_of_interest_invariant 1 ctxFive "dor" iaInjury
  exact ⟨h.1, h.2.2.2.1 (by decide)⟩

/-- C10: when `start_conversation` is called with a (non-empty) initial
message for a user with no resumable active conversation, two user-message
records with identical content are persisted for the newly created
conversation — one saved directly by `start_conversation` and a second saved
by the invoked `process_user_message` path. -/
theorem C10_initial_message_saved_twice
    (env : Env) (st : St) (uid : Nat) (ctype : String) (m : String)
    (hm : m ≠ "")
    (hnores : ∀ c ∈ st.conversations, recentPred env.now uid c = false)
    (hfreshc : ∀ c ∈ st.conversations, c.id ≠ st.nextConvId)
    (hfreshm : ∀ mm ∈ st.messages, mm.conversationId ≠ st.nextConvId) :
    countUser (start_conversation env st uid ctype (some m)).1 st.nextConvId m = 2 := by
  have hfind : st.conversations.find? (recentPred env.now uid) = none :=
    List.find?_eq_none.mpr (fun x hx => by simp [hnores x hx])
  unfold start_conversation
  rw [hfind]
  unfold start_new_conversation
  have htr : pyStrTruthy (some m) = true := by simp [pyStrTruthy, hm]
  simp only [htr, if_true]
  unfold process_user_message
  set conv : Conversation :=
    { id := st.nextConvId, userId := uid, conversationType := ctype,
      status := "active", createdAt := env.now, aiModelUsed := env.openaiModel,
      userSatisfactionRating := none } with hconv
  set S : St :=
    { users := st.users, conversations := st.conversations ++ [conv],
      messages := st.messages,
      contexts := initialize_conversation_context env st.contexts conv,
      cache := st.cache, nextConvId := st.nextConvId + 1,
      nextMsgId := st.nextMsgId } with hS
  have hfindS : List.find? (fun c => c.id == st.nextConvId)
      (save_user_message S st.nextConvId ((some m).getD "")).1.conversations =
      some conv := by
    rw [save_user_message_conversations]
    rw [find?_append_of_none]
    · simp [List.find?_cons]
    · intro x hx
      simp [hfreshc x hx]
  rw [hfindS]
  have hexp : is_expired env.now conv = false := by
    unfold is_expired
    simp
  simp only [hexp, Bool.false_eq_true, if_false]
  have hne12 : (st.nextMsgId == st.nextMsgId + 1) = false := by simp
  have hzero : List.countP (fun mm =>
      mm.conversationId == st.nextConvId && mm.messageType == "user"
        && mm.content == m) st.messages = 0 :=
    List.countP_eq_zero.mpr (fun mm hmm => by simp [hfreshm mm hmm])
  split
  · simp [countUser, save_ai_message, save_user_message, List.countP_append,
      List.countP_map, hne12, hzero]
    intro a ha
    by_cases hid : a.id = st.nextMsgId + 1
    · rw [if_pos hid]
      intro hcid
      exact absurd hcid (hfreshm a ha)
    · rw [if_neg hid]
      intro hcid
      exact absurd hcid (hfreshm a ha)
  · simp [countUser, save_ai_message, save_user_message, List.countP_append,
      List.countP_map, hne12, hzero]
    intro a ha
    by_cases hid : a.id = st.nextMsgId + 1
    · rw [if_pos hid]
      intro hcid
      exact absurd hcid (hfreshm a ha)
    · rw [if_neg hid]
      intro hcid
      exact absurd hcid (hfreshm a ha)

/-- Witness for C10 at a concrete input: starting a conversation on an empty
store with the initial message "quero treino" stores two user messages with
that content for the new conversation. -/
theorem C10_initial_message_saved_twice_witness :
    countUser (start_conversation env0 stEmpty 1 "general_fitness"
      (some "quero treino")).1 1 "quero treino" = 2 :=
  C10_initial_message_saved_twice env0 stEmpty 1 "general_fitness" "quero treino"
    (by decide) (by decide) (by decide) (by decide)

/-- Every intent in the keyword table has at least one keyword. -/
theorem intent_keywords_nonempty : ∀ p ∈ intent_keywords, 0 < p.2.length := by
  decide

/-- The keyword table has one entry per intent key. -/
theorem intent_keywords_key_unique :
    ∀ x ∈ intent_keywords, ∀ y ∈ intent_keywords, x.1 = y.1 → x = y := by
  decide

/-- The default intent has no keyword-table entry of its own. -/
theorem no_general_question_key : ∀ p ∈ intent_keywords, p.1 ≠ "general_question" := by
  decide

/-- Every entry of the `intent_scores` list has a positive score. -/
theorem intentScoresList_pos (ml : String) :
    ∀ p ∈ intentScoresList ml, 0 < p.2 := by
  intro p hp
  rcases List.mem_filterMap.mp hp with ⟨a, ha, hfa⟩
  dsimp only at hfa
  by_cases h : intentScore ml a.2 > 0
  · rw [if_pos h] at hfa
    cases hfa
    have hlen : 0 < a.2.length := intent_keywords_nonempty a ha
    exact div_pos (by exact_mod_cast h) (by exact_mod_cast hlen)
  · rw [if_neg h] at hfa
    cases hfa

/-- Every entry of the `intent_scores` list carries exactly the
matched-keywords over total-keywords ratio of its intent. -/
theorem intentScoresList_formula (ml : String) (w : String × Rat)
    (hw : w ∈ intentScoresList ml) :
    ∀ p ∈ intent_keywords, p.1 = w.1 →
      w.2 = (intentScore ml p.2 : Rat) / (p.2.length : Rat) := by
  rcases List.mem_filterMap.mp hw with ⟨a, ha, hfa⟩
  dsimp only at hfa
  by_cases h : intentScore ml a.2 > 0
  · rw [if_pos h] at hfa
    cases hfa
    intro p hp hp1
    have : p = a := intent_keywords_key_unique p hp a ha hp1
    rw [this]
  · rw [if_neg h] at hfa
    cases hfa

/-- For a nonempty scores list with a nonnegative head, the claim-side
maximum coincides with the value selected by the Python `max` loop. -/
theorem maxScore_cons (q : String × Rat) (l : List (String × Rat))
    (hq : 0 ≤ q.2) : maxScore (q :: l) = (pyMaxPair q l).2 := by
  unfold maxScore
  simp only [List.map_cons, List.foldl_cons]
  rw [max_eq_right hq, ← pyMaxPair_snd]

/-- C4: `_rule_based_intent_analysis` computes, for each keyworded intent,
score = (matched keywords) / (total keywords); it returns the
first-encountered intent of maximal score as the main intent with that score
as confidence (stated as: the returned pair is the first entry of the scores
list attaining the maximum score); if no keyword matches it returns
`general_question` with confidence 0.5 and no secondary intents; and the
secondary intents are exactly the other intents scoring strictly above 0.2, in
table order. -/
theorem C4_rule_based_classifier (message : String) :
    (intentScoresList (pyLower message) = [] →
      (rule_based_intent_analysis message).intent = "general_question" ∧
      (rule_based_intent_analysis message).confidence = (1 : Rat) / 2 ∧
      (rule_based_intent_analysis message).secondaryIntents = []) ∧
    (intentScoresList (pyLower message) ≠ [] →
      (intentScoresList (pyLower message)).find?
          (fun q => q.2 == maxScore (intentScoresList (pyLower message))) =
        some ((rule_based_intent_analysis message).intent,
              (rule_based_intent_analysis message).confidence)) ∧
    (∀ p ∈ intent_keywords, p.1 = (rule_based_intent_analysis message).intent →
      (rule_based_intent_analysis message).confidence =
        (intentScore (pyLower message) p.2 : Rat) / (p.2.length : Rat)) ∧
    ((rule_based_intent_analysis message).secondaryIntents =
      ((intentScoresList (pyLower message)).filter
        (fun q => q.1 ≠ (rule_based_intent_analysis message).intent
          && q.2 > (1 : Rat) / 5)).map (·.1)) := by
  cases hs : intentScoresList (pyLower message) with
  | nil =>
    have hintent : (rule_based_intent_analysis message).intent = "general_question" := by
      simp only [rule_based_intent_analysis]
      rw [hs]
    have hconf : (rule_based_intent_analysis message).confidence = (1 : Rat) / 2 := by
      simp only [rule_based_intent_analysis]
      rw [hs]
    have hsec : (rule_based_intent_analysis message).secondaryIntents = [] := by
      simp only [rule_based_intent_analysis]
      rw [hs]
      rfl
    refine ⟨fun _ => ⟨hintent, hconf, hsec⟩, fun hne => absurd rfl hne, ?_, ?_⟩
    · intro p hp hp1
      rw [hintent] at hp1
      exact absurd hp1 (no_general_question_key p hp)
    · rw [hsec]
      rfl
  | cons q rest =>
    have hpos := intentScoresList_pos (pyLower message)
    rw [hs] at hpos
    have hq0 : (0 : Rat) ≤ q.2 := le_of_lt (hpos q (List.mem_cons_self _ _))
    have hintent : (rule_based_intent_analysis message).intent = (pyMaxPair q rest).1 := by
      simp only [rule_based_intent_analysis]
      rw [hs]
    have hconf : (rule_based_intent_analysis message).confidence = (pyMaxPair q rest).2 := by
      simp only [rule_based_intent_analysis]
      rw [hs]
    have hsec : (rule_based_intent_analysis message).secondaryIntents =
        ((q :: rest).filter (fun p =>
          p.1 ≠ (pyMaxPair q rest).1 && p.2 > (1 : Rat) / 5)).map (·.1) := by
      simp only [rule_based_intent_analysis]
      rw [hs]
    refine ⟨fun h0 => absurd h0 (List.cons_ne_nil q rest), ?_, ?_, ?_⟩
    · intro _
      rw [hintent, hconf, maxScore_cons q rest hq0, Prod.mk.eta]
      exact pyMaxPair_find q rest
    · intro p hp hp1
      rw [hintent] at hp1
      rw [hconf]
      have hwmem : pyMaxPair q rest ∈ intentScoresList (pyLower message) := by
        rw [hs]
        exact pyMaxPair_mem q rest
      exact intentScoresList_formula (pyLower message) (pyMaxPair q rest) hwmem p hp hp1
    · rw [hsec, hintent]

/-- Witness for C4 at a concrete input: for "quero treinar e sinto dor" the
returned intent/confidence pair is the first maximal entry of the scores
list. -/
theorem C4_rule_based_classifier_witness :
    (intentScoresList (pyLower "quero treinar e sinto dor")).find?
        (fun q => q.2 ==
          maxScore (intentScoresList (pyLower "quero treinar e sinto dor"))) =
      some ((rule_based_intent_analysis "quero treinar e sinto dor").intent,
            (rule_based_intent_analysis "quero treinar e sinto dor").confidence) :=
  (C4_rule_based_classifier "quero treinar e sinto dor").2.1 (by decide)

end FitAi
